import Mathlib

/-!
Verification of the safer-transmute rustdoc crate (src/src/lib.rs).

The crate is a mock of the API surface proposed by the safe-transmute RFC: the
compatibility relation `TransmuteFrom`/`TransmuteInto` together with the
stability-promise traits `PromiseTransmutableInto`/`PromiseTransmutableFrom`,
the sealed waiver options, the derived alignment/size queries of the `mem`
module, and the slice/Vec casting extensions of the `cast` module.

The embedding is a shallow one of trait resolution: `Ty` is the universe of
Rust types the crate's impls mention, `Goal` is a trait-resolution goal over
the mutually-referring traits, and `Holds` is the inductive closure of the
impls that actually appear in src/src/lib.rs, one constructor per impl.  The
default method bodies (`ptr::read` / `ptr::read_unaligned` + `mem::forget`)
are modelled at the byte level.
-/

namespace SaferTransmute

/-- The universe of Rust types occurring in the crate's impls: the primitives
with stability impls (src/src/lib.rs lines 340-375), `PhantomData` (line 378),
the compound carriers with structural stability impls (arrays, raw pointers,
references, lines 382-483), plus `Vec` (used by the `cast::options::vec`
module) and the `Aligned` comparison gadget of the `mem` module (line 684),
which both appear in the source without stability impls. -/
inductive Ty where
  | never
  | unit
  | f32
  | f64
  | i8
  | i16
  | i32
  | i64
  | i128
  | isize
  | u8
  | u16
  | u32
  | u64
  | u128
  | usize
  | phantomData (t : Ty)
  | array (t : Ty) (n : Nat)
  | constPtr (t : Ty)
  | mutPtr (t : Ty)
  | ref (t : Ty)
  | mutRef (t : Ty)
  | vec (t : Ty)
  | aligned (a t : Ty)
deriving DecidableEq

/-- The three guarantees a transmutation option can neglect (doc table at
src/src/lib.rs lines 490-494). -/
inductive Waiver where
  | stability
  | alignment
  | validity
deriving DecidableEq

/-- The four sealed option types of the `options` module: `()` (lines
508-509), `NeglectStability` (line 529), `NeglectAlignment` (line 558) and
`NeglectValidity` (line 620).  The `private::Sealed` trait (lines 626-637)
closes this list; the commented-out tuple combinations are not implemented. -/
inductive Neglect where
  | unit
  | neglectStability
  | neglectAlignment
  | neglectValidity
deriving DecidableEq

/-- The waiver tokens an option type stands for, viewed as a set. -/
def Neglect.waivers : Neglect → List Waiver
  | .unit => []
  | .neglectStability => [.stability]
  | .neglectAlignment => [.alignment]
  | .neglectValidity => [.validity]

/-- Containment of waiver sets: every token of `w` is a token of `w2`. -/
def Neglect.sub (w w2 : Neglect) : Prop :=
  ∀ t ∈ w.waivers, t ∈ w2.waivers

instance (w w2 : Neglect) : Decidable (Neglect.sub w w2) :=
  List.decidableBAll _ _

/-- The `SafeTransmuteOptions` impls of the crate: `()` (line 508) and
`NeglectStability` (line 532).  One constructor per impl. -/
inductive SafeTransmuteOptions : Neglect → Prop
  | unit : SafeTransmuteOptions .unit
  | neglectStability : SafeTransmuteOptions .neglectStability

/-- The `UnsafeTransmuteOptions` impls of the crate: `()` (line 509),
`NeglectStability` (line 533), `NeglectAlignment` (line 559) and
`NeglectValidity` (line 621).  One constructor per impl. -/
inductive UnsafeTransmuteOptions : Neglect → Prop
  | unit : UnsafeTransmuteOptions .unit
  | neglectStability : UnsafeTransmuteOptions .neglectStability
  | neglectAlignment : UnsafeTransmuteOptions .neglectAlignment
  | neglectValidity : UnsafeTransmuteOptions .neglectValidity

/-- A trait-resolution goal over the transmute module's traits:
`tf src dst n` stands for `dst : TransmuteFrom<src, n>`,
`ti src dst n` for `src : TransmuteInto<dst, n>`,
`pti t arch` for `impl PromiseTransmutableInto for t { type Archetype = arch }`,
and `ptf t arch` for the `PromiseTransmutableFrom` impl. -/
inductive Goal where
  | tf (src dst : Ty) (n : Neglect)
  | ti (src dst : Ty) (n : Neglect)
  | pti (t arch : Ty)
  | ptf (t arch : Ty)

/-- The inductive closure of the trait impls written in src/src/lib.rs, one
constructor per impl:

* `tf_refl`: `unsafe impl<T> TransmuteFrom<T, NeglectStability> for T` (line 184);
* `tf_stability`: the stability-derived impl (lines 190-199), requiring
  `Src: PromiseTransmutableInto`, `Dst: PromiseTransmutableFrom` and
  `Dst::Archetype: TransmuteFrom<Src::Archetype, NeglectStability>`;
* `ti_blanket`: the blanket `TransmuteInto` impl (lines 112-117), requiring
  `Dst: TransmuteFrom<Src, Neglect>` and `Neglect: UnsafeTransmuteOptions`;
* the `pti_*`/`ptf_*` constructors: the stability impls of the `stability`
  module (lines 340-483); the base types declare themselves as their own
  archetype, and the compound carriers declare the carrier over the element's
  archetype, under the side conditions written in their where-clauses
  (including that the substituted carrier itself implements the promise trait,
  with some archetype `a2`). -/
inductive Holds : Goal → Prop
  | tf_refl (t : Ty) : Holds (.tf t t .neglectStability)
  | tf_stability {src dst archS archD : Ty} :
      Holds (.pti src archS) → Holds (.ptf dst archD) →
      Holds (.tf archS archD .neglectStability) → Holds (.tf src dst .unit)
  | ti_blanket {src dst : Ty} {n : Neglect} :
      UnsafeTransmuteOptions n → Holds (.tf src dst n) → Holds (.ti src dst n)
  | pti_never : Holds (.pti .never .never)
  | pti_unit : Holds (.pti .unit .unit)
  | pti_f32 : Holds (.pti .f32 .f32)
  | pti_f64 : Holds (.pti .f64 .f64)
  | pti_i8 : Holds (.pti .i8 .i8)
  | pti_i16 : Holds (.pti .i16 .i16)
  | pti_i32 : Holds (.pti .i32 .i32)
  | pti_i64 : Holds (.pti .i64 .i64)
  | pti_i128 : Holds (.pti .i128 .i128)
  | pti_isize : Holds (.pti .isize .isize)
  | pti_u8 : Holds (.pti .u8 .u8)
  | pti_u16 : Holds (.pti .u16 .u16)
  | pti_u32 : Holds (.pti .u32 .u32)
  | pti_u64 : Holds (.pti .u64 .u64)
  | pti_u128 : Holds (.pti .u128 .u128)
  | pti_usize : Holds (.pti .usize .usize)
  | pti_phantomData (t : Ty) : Holds (.pti (.phantomData t) (.phantomData t))
  | pti_array {t a a2 : Ty} {n : Nat} :
      Holds (.pti t a) →
      Holds (.tf (.array t n) (.array a n) .neglectStability) →
      Holds (.pti (.array a n) a2) →
      Holds (.pti (.array t n) (.array a n))
  | pti_constPtr {t a a2 : Ty} :
      Holds (.pti t a) →
      Holds (.tf (.constPtr t) (.constPtr a) .neglectStability) →
      Holds (.pti (.constPtr a) a2) →
      Holds (.pti (.constPtr t) (.constPtr a))
  | pti_mutPtr {t a a2 : Ty} :
      Holds (.pti t a) →
      Holds (.tf (.mutPtr t) (.mutPtr a) .neglectStability) →
      Holds (.pti (.mutPtr a) a2) →
      Holds (.pti (.mutPtr t) (.mutPtr a))
  | pti_ref {t a a2 : Ty} :
      Holds (.pti t a) →
      Holds (.tf (.ref t) (.ref a) .neglectStability) →
      Holds (.pti (.ref a) a2) →
      Holds (.pti (.ref t) (.ref a))
  | pti_mutRef {t a a2 : Ty} :
      Holds (.pti t a) →
      Holds (.tf (.mutRef t) (.mutRef a) .neglectStability) →
      Holds (.pti (.mutRef a) a2) →
      Holds (.pti (.mutRef t) (.mutRef a))
  | ptf_never : Holds (.ptf .never .never)
  | ptf_unit : Holds (.ptf .unit .unit)
  | ptf_f32 : Holds (.ptf .f32 .f32)
  | ptf_f64 : Holds (.ptf .f64 .f64)
  | ptf_i8 : Holds (.ptf .i8 .i8)
  | ptf_i16 : Holds (.ptf .i16 .i16)
  | ptf_i32 : Holds (.ptf .i32 .i32)
  | ptf_i64 : Holds (.ptf .i64 .i64)
  | ptf_i128 : Holds (.ptf .i128 .i128)
  | ptf_isize : Holds (.ptf .isize .isize)
  | ptf_u8 : Holds (.ptf .u8 .u8)
  | ptf_u16 : Holds (.ptf .u16 .u16)
  | ptf_u32 : Holds (.ptf .u32 .u32)
  | ptf_u64 : Holds (.ptf .u64 .u64)
  | ptf_u128 : Holds (.ptf .u128 .u128)
  | ptf_usize : Holds (.ptf .usize .usize)
  | ptf_phantomData (t : Ty) : Holds (.ptf (.phantomData t) (.phantomData t))
  | ptf_array {t a a2 : Ty} {n : Nat} :
      Holds (.ptf t a) →
      Holds (.ti (.array a n) (.array t n) .neglectStability) →
      Holds (.ptf (.array a n) a2) →
      Holds (.ptf (.array t n) (.array a n))
  | ptf_constPtr {t a a2 : Ty} :
      Holds (.ptf t a) →
      Holds (.ti (.constPtr a) (.constPtr t) .neglectStability) →
      Holds (.ptf (.constPtr a) a2) →
      Holds (.ptf (.constPtr t) (.constPtr a))
  | ptf_mutPtr {t a a2 : Ty} :
      Holds (.ptf t a) →
      Holds (.ti (.mutPtr a) (.mutPtr t) .neglectStability) →
      Holds (.ptf (.mutPtr a) a2) →
      Holds (.ptf (.mutPtr t) (.mutPtr a))
  | ptf_ref {t a a2 : Ty} :
      Holds (.ptf t a) →
      Holds (.ti (.ref a) (.ref t) .neglectStability) →
      Holds (.ptf (.ref a) a2) →
      Holds (.ptf (.ref t) (.ref a))
  | ptf_mutRef {t a a2 : Ty} :
      Holds (.ptf t a) →
      Holds (.ti (.mutRef a) (.mutRef t) .neglectStability) →
      Holds (.ptf (.mutRef a) a2) →
      Holds (.ptf (.mutRef t) (.mutRef a))

/-- `dst : TransmuteFrom<src, n>` as the crate's impls derive it. -/
def TransmuteFrom (src dst : Ty) (n : Neglect) : Prop := Holds (.tf src dst n)

/-- `src : TransmuteInto<dst, n>` as the crate's impls derive it. -/
def TransmuteInto (src dst : Ty) (n : Neglect) : Prop := Holds (.ti src dst n)

/-- `t : PromiseTransmutableInto` with `Archetype = arch`. -/
def PromiseTransmutableInto (t arch : Ty) : Prop := Holds (.pti t arch)

/-- `t : PromiseTransmutableFrom` with `Archetype = arch`. -/
def PromiseTransmutableFrom (t arch : Ty) : Prop := Holds (.ptf t arch)

/-- Invariant of every derivable goal: the transmute relations only relate a
type to itself (the crate's only impls are the reflexive one and the
stability-derived one, and every archetype in the crate is the declaring type
itself), and only at the options `NeglectStability` (reflexive impl) or `()`
(stability-derived impl); every declared archetype equals the declaring
type. -/
def GoalInv : Goal → Prop
  | .tf src dst n => src = dst ∧ (n = .neglectStability ∨ n = .unit)
  | .ti src dst n => src = dst ∧ (n = .neglectStability ∨ n = .unit)
  | .pti t arch => arch = t
  | .ptf t arch => arch = t

theorem holds_inv {g : Goal} (h : Holds g) : GoalInv g := by
  induction h <;> simp_all [GoalInv]

theorem transmuteFrom_eq {s d : Ty} {n : Neglect}
    (h : TransmuteFrom s d n) : s = d :=
  (holds_inv h).1

theorem transmuteFrom_opts {s d : Ty} {n : Neglect} (h : TransmuteFrom s d n) :
    n = .neglectStability ∨ n = .unit :=
  (holds_inv h).2

theorem promiseInto_arch {t a : Ty} (h : PromiseTransmutableInto t a) : a = t :=
  holds_inv h

theorem promiseFrom_arch {t a : Ty} (h : PromiseTransmutableFrom t a) : a = t :=
  holds_inv h

/-- `Vec<t>` has no `PromiseTransmutableInto` impl in the crate. -/
theorem no_pti_vec (t a : Ty) : ¬ PromiseTransmutableInto (.vec t) a := by
  intro h; cases h

/-- Hence neither has an array over `Vec<t>` (the structural array impl needs
the element's promise). -/
theorem no_pti_array_vec (t a : Ty) (k : Nat) :
    ¬ PromiseTransmutableInto (.array (.vec t) k) a := by
  intro h
  cases h with
  | pti_array h1 h2 h3 => exact no_pti_vec _ _ h1

/-- Nor a reference to such an array (structural reference impl). -/
theorem no_pti_ref_array_vec (t a : Ty) (k : Nat) :
    ¬ PromiseTransmutableInto (.ref (.array (.vec t) k)) a := by
  intro h
  cases h with
  | pti_ref h1 h2 h3 => exact no_pti_array_vec _ _ _ h1

/-- No transmutation whose source is a reference to an array of `Vec<t>` is
derivable at the empty option: the stability-derived impl is the only source
of `()` instances and it needs the source's `PromiseTransmutableInto`. -/
theorem no_tf_unit_from_ref_array_vec (d t : Ty) (k : Nat)
    (h : TransmuteFrom (.ref (.array (.vec t) k)) d .unit) : False := by
  cases h with
  | tf_stability h1 h2 h3 => exact no_pti_ref_array_vec _ _ _ h1

/-- The `Aligned` gadget of the `mem` module has no `PromiseTransmutableFrom`
impl in the crate (its derive at src/src/lib.rs line 682 is commented out). -/
theorem no_ptf_aligned (x y a : Ty) :
    ¬ PromiseTransmutableFrom (.aligned x y) a := by
  intro h; cases h

/-- No transmutation whose destination is a reference to an `Aligned` gadget
is derivable at the empty option: the stability-derived impl needs the
destination's `PromiseTransmutableFrom`. -/
theorem no_tf_unit_to_ref_aligned (s x y : Ty)
    (h : TransmuteFrom s (.ref (.aligned x y)) .unit) : False := by
  cases h with
  | tf_stability h1 h2 h3 =>
    cases h2 with
    | ptf_ref h4 h5 h6 => exact no_ptf_aligned _ _ _ h4

/-! ## Byte-level model of the conversion method bodies -/

/-- A source value in storage: the address it lives at and its byte
representation. -/
structure SrcSlot where
  addr : Nat
  bytes : List Nat
deriving DecidableEq

/-- The outcome of a by-value conversion: the bytes of the produced value and
whether the source binding's destructor ran. -/
structure MoveResult where
  value : List Nat
  srcDropRan : Bool
deriving DecidableEq

/-- `core::ptr::read` at type `Dst`: copies the pointee's bytes, defined only
when the source address satisfies `Dst`'s alignment. -/
def ptrRead (dstAlign : Nat) (src : SrcSlot) : Option (List Nat) :=
  if src.addr % dstAlign = 0 then some src.bytes else none

/-- `core::ptr::read_unaligned`: the same copy without the alignment
requirement on the source address. -/
def ptrReadUnaligned (_dstAlign : Nat) (src : SrcSlot) : Option (List Nat) :=
  some src.bytes

/-- Default body of `TransmuteFrom::transmute_from` (src/src/lib.rs lines
148-162): `ptr::read` of the source reinterpreted at the destination type,
then `mem::forget(src)`, so the source's destructor does not run. -/
def transmute_from (dstAlign : Nat) (src : SrcSlot) : Option MoveResult :=
  match ptrRead dstAlign src with
  | some dst => some ⟨dst, false⟩
  | none => none

/-- Default body of `TransmuteFrom::unsafe_transmute_from` (src/src/lib.rs
lines 164-181): identical, with `ptr::read_unaligned` in place of
`ptr::read`. -/
def unsafe_transmute_from (dstAlign : Nat) (src : SrcSlot) : Option MoveResult :=
  match ptrReadUnaligned dstAlign src with
  | some dst => some ⟨dst, false⟩
  | none => none

/-- Body of the blanket `TransmuteInto::transmute_into` (src/src/lib.rs lines
118-126): `Dst::transmute_from(self)`. -/
def transmute_into (dstAlign : Nat) (src : SrcSlot) : Option MoveResult :=
  transmute_from dstAlign src

/-- Body of the blanket `TransmuteInto::unsafe_transmute_into` (src/src/lib.rs
lines 128-136): `Dst::unsafe_transmute_from(self)`. -/
def unsafe_transmute_into (dstAlign : Nat) (src : SrcSlot) : Option MoveResult :=
  unsafe_transmute_from dstAlign src

/-! ## The `mem` module's derived layout queries -/

/-- `Lhs: AlignLtEq<Rhs, Neglect>` (src/src/lib.rs lines 650-661): a reference
to the zero-length array gadget over `Lhs` is transmutable from one over
`Rhs`, at the given option. -/
def AlignLtEq (lhs rhs : Ty) (n : Neglect) : Prop :=
  UnsafeTransmuteOptions n ∧
    TransmuteFrom (.ref (.array rhs 0)) (.ref (.array lhs 0)) n

/-- `Lhs: AlignEq<Rhs, Neglect>` (src/src/lib.rs lines 663-675).  Its
where-clauses are `Lhs: AlignLtEq<Rhs>` and `Rhs: AlignLtEq<Lhs>` with the
`Neglect` parameter left at its default `()`. -/
def AlignEq (lhs rhs : Ty) (n : Neglect) : Prop :=
  UnsafeTransmuteOptions n ∧ AlignLtEq lhs rhs .unit ∧ AlignLtEq rhs lhs .unit

/-- `Lhs: SizeLtEq<Rhs, Neglect>` (src/src/lib.rs lines 686-697): a reference
to `Aligned<Rhs, Lhs>` is transmutable from one to `Aligned<Lhs, Rhs>`; the
where-clause leaves the inner `TransmuteFrom` option at its default `()`. -/
def SizeLtEq (lhs rhs : Ty) (n : Neglect) : Prop :=
  UnsafeTransmuteOptions n ∧
    TransmuteFrom (.ref (.aligned lhs rhs)) (.ref (.aligned rhs lhs)) .unit

/-- `Lhs: SizeEq<Rhs, Neglect>` (src/src/lib.rs lines 699-711), with
where-clauses `Lhs: SizeLtEq<Rhs>` and `Rhs: SizeLtEq<Lhs>` at the default
`()`. -/
def SizeEq (lhs rhs : Ty) (n : Neglect) : Prop :=
  UnsafeTransmuteOptions n ∧ SizeLtEq lhs rhs .unit ∧ SizeLtEq rhs lhs .unit

/-- The equality query as the specification words it: the ≤ query in both
directions under the same waiver set (for comparison with `AlignEq`). -/
def AlignEqSpec (lhs rhs : Ty) (n : Neglect) : Prop :=
  AlignLtEq lhs rhs n ∧ AlignLtEq rhs lhs n

/-- The size-equality query as the specification words it: size-≤ in both
directions under the same waiver set (for comparison with `SizeEq`). -/
def SizeEqSpec (lhs rhs : Ty) (n : Neglect) : Prop :=
  SizeLtEq lhs rhs n ∧ SizeLtEq rhs lhs n

/-! ## The `cast` module: slice and Vec casting -/

/-- The host-reported byte size of each type, on the 64-bit host the crate's
doc examples assume (spec §3: size, alignment and validity are supplied by the
host type system, not computed by this core).  Used to embed
`core::mem::size_of_val`. -/
def hostSize : Ty → Nat
  | .never => 0
  | .unit => 0
  | .f32 => 4
  | .f64 => 8
  | .i8 => 1
  | .i16 => 2
  | .i32 => 4
  | .i64 => 8
  | .i128 => 16
  | .isize => 8
  | .u8 => 1
  | .u16 => 2
  | .u32 => 4
  | .u64 => 8
  | .u128 => 16
  | .usize => 8
  | .phantomData _ => 0
  | .array t n => n * hostSize t
  | .constPtr _ => 8
  | .mutPtr _ => 8
  | .ref _ => 8
  | .mutRef _ => 8
  | .vec _ => 24
  | .aligned _ t => hostSize t

/-- `core::mem::size_of_val` applied to a slice of `len` elements of type
`elem`: the slice's total byte length. -/
def size_of_val (elem : Ty) (len : Nat) : Nat := len * hostSize elem

/-- The crate-local `const fn size_of<T>() -> usize { 20060723 }`
(src/src/lib.rs lines 823-825): it returns the placeholder constant 20060723
for every type; a script embedded in the doc comments rewrites the rendered
docs to display it as `size_of::<Src>()` / `size_of::<Dst>()`. -/
def size_of (_t : Ty) : Nat := 20060723

/-- `usize::checked_div`: `none` on division by zero. -/
def checked_div (a b : Nat) : Option Nat :=
  if b = 0 then none else some (a / b)

/-- `Neglect: UnsafeSliceCastOptions` (src/src/lib.rs lines 839-847): the
blanket impl makes every `UnsafeTransmuteOptions` type an
`UnsafeSliceCastOptions` type, and the trait's super-traits add nothing
beyond `UnsafeTransmuteOptions`. -/
def UnsafeSliceCastOptions (n : Neglect) : Prop := UnsafeTransmuteOptions n

/-- The where-clause of `CastFrom<&'i [Src], Neglect> for &'o [Dst]`
(src/src/lib.rs lines 865-869): the cross-wise array bound
`&'o [Dst; size_of::<Src>()]: TransmuteFrom<&'i [Src; size_of::<Dst>()], Neglect>`,
where `size_of` is the crate-local placeholder function. -/
def SliceCastGuard (src dst : Ty) (n : Neglect) : Prop :=
  UnsafeSliceCastOptions n ∧
    TransmuteFrom (.ref (.array src (size_of dst))) (.ref (.array dst (size_of src))) n

/-- The slice length computed by the body of `unsafe_cast_from`
(src/src/lib.rs line 876):
`size_of_val(src).checked_div(size_of::<Dst>()).unwrap_or(0)`, with `size_of`
the crate-local placeholder function. -/
def slice_cast_len (srcElem : Ty) (srcLen : Nat) (dstElem : Ty) : Nat :=
  (checked_div (size_of_val srcElem srcLen) (size_of dstElem)).getD 0

/-- `Neglect: UnsafeVecCastOptions` (src/src/lib.rs lines 974-980): the
blanket impl makes every `UnsafeTransmuteOptions` type an
`UnsafeVecCastOptions` type. -/
def UnsafeVecCastOptions (n : Neglect) : Prop := UnsafeTransmuteOptions n

/-- The where-clauses of `CastFrom<Vec<Src>, Neglect> for Vec<Dst>`
(src/src/lib.rs lines 992-998): note that both gadget bounds are
`Dst: AlignEq<Dst, Neglect>` and `Dst: SizeEq<Dst, Neglect>`, comparing the
destination element type with itself. -/
def VecCastGuard (src dst : Ty) (n : Neglect) : Prop :=
  UnsafeVecCastOptions n ∧ TransmuteFrom src dst n ∧
    AlignEq dst dst n ∧ SizeEq dst dst n

/-- The raw parts of a `Vec`: pointer, length, capacity. -/
structure RawVec where
  ptr : Nat
  len : Nat
  cap : Nat
deriving DecidableEq

/-- Body of the Vec cast's `unsafe_cast_from` (src/src/lib.rs lines
1001-1007): `src.into_raw_parts()` then
`Vec::from_raw_parts(ptr as *mut Dst, len, cap)`. -/
def vec_unsafe_cast_from (v : RawVec) : RawVec :=
  let parts := (v.ptr, v.len, v.cap)
  ⟨parts.1, parts.2.1, parts.2.2⟩

/-! ## The claims -/

/-- C1: for every pair of types, if the destination declares inbound stability
with archetype `archD`, the source declares outbound stability with archetype
`archS`, and `archD` is transmutable from `archS` under `NeglectStability`,
then the destination is transmutable from the source under the empty waiver
set — the stability-derived impl of src/src/lib.rs lines 186-199. -/
theorem c1_stability_derived (src dst archS archD : Ty)
    (h1 : PromiseTransmutableInto src archS)
    (h2 : PromiseTransmutableFrom dst archD)
    (h3 : TransmuteFrom archS archD .neglectStability) :
    TransmuteFrom src dst .unit :=
  Holds.tf_stability h1 h2 h3

theorem c1_witness :
    PromiseTransmutableInto .u8 .u8 ∧ PromiseTransmutableFrom .u8 .u8 ∧
      TransmuteFrom .u8 .u8 .neglectStability ∧ TransmuteFrom .u8 .u8 .unit :=
  ⟨Holds.pti_u8, Holds.ptf_u8, Holds.tf_refl .u8,
    c1_stability_derived .u8 .u8 .u8 .u8 Holds.pti_u8 Holds.ptf_u8
      (Holds.tf_refl .u8)⟩

/-- C2 counterexample: the conversion (u8, u8, {}) is derivable and the empty
waiver set is contained in {neglect-alignment}, yet (u8, u8,
{neglect-alignment}) is not derivable — the crate has no `TransmuteFrom` impl
at `NeglectAlignment` — so monotonicity into every larger waiver set fails as
stated. -/
theorem c2_counterexample :
    TransmuteFrom .u8 .u8 .unit ∧ Neglect.sub .unit .neglectAlignment ∧
      ¬ TransmuteFrom .u8 .u8 .neglectAlignment := by
  refine ⟨Holds.tf_stability Holds.pti_u8 Holds.ptf_u8 (Holds.tf_refl .u8),
    by decide, fun h => ?_⟩
  exact absurd (transmuteFrom_opts h) (by decide)

/-- C2 (amended): waiver monotonicity holds into every larger waiver set that
is a safe option: if (A, B, W) is derivable, W ⊆ W2 and W2 is a
`SafeTransmuteOptions` type ({} or `NeglectStability`), then (A, B, W2) is
derivable.  The crate provides no `TransmuteFrom` impls at `NeglectAlignment`
or `NeglectValidity`, so enlarging the waiver set into those options does not
preserve derivability. -/
theorem c2_monotonicity_safe (a b : Ty) (w w2 : Neglect)
    (h : TransmuteFrom a b w) (hsub : Neglect.sub w w2)
    (hsafe : SafeTransmuteOptions w2) : TransmuteFrom a b w2 := by
  cases hsafe with
  | unit =>
    rcases transmuteFrom_opts h with hw | hw
    · subst hw
      have hmem := hsub .stability (by simp [Neglect.waivers])
      simp [Neglect.waivers] at hmem
    · subst hw
      exact h
  | neglectStability =>
    cases transmuteFrom_eq h
    exact Holds.tf_refl a

theorem c2_witness :
    TransmuteFrom .u8 .u8 .unit ∧ Neglect.sub .unit .neglectStability ∧
      SafeTransmuteOptions .neglectStability ∧
      TransmuteFrom .u8 .u8 .neglectStability :=
  ⟨Holds.tf_stability Holds.pti_u8 Holds.ptf_u8 (Holds.tf_refl .u8), by decide,
    SafeTransmuteOptions.neglectStability,
    c2_monotonicity_safe .u8 .u8 .unit .neglectStability
      (Holds.tf_stability Holds.pti_u8 Holds.ptf_u8 (Holds.tf_refl .u8))
      (by decide) SafeTransmuteOptions.neglectStability⟩

/-- C3: every type is transmutable from itself under `NeglectStability` (the
reflexive impl, src/src/lib.rs line 184), and executing the conversion on an
aligned source returns a value whose byte representation is exactly the
source's. -/
theorem c3_reflexive :
    (∀ t : Ty, TransmuteFrom t t .neglectStability) ∧
      ∀ (dstAlign : Nat) (src : SrcSlot), src.addr % dstAlign = 0 →
        ∃ r, transmute_from dstAlign src = some r ∧ r.value = src.bytes := by
  refine ⟨fun t => Holds.tf_refl t, fun a s h => ⟨⟨s.bytes, false⟩, ?_, rfl⟩⟩
  simp [transmute_from, ptrRead, h]

theorem c3_witness :
    TransmuteFrom .u32 .u32 .neglectStability ∧
      ∃ r, transmute_from 4 ⟨8, [1, 2, 3, 4]⟩ = some r ∧
        r.value = [1, 2, 3, 4] :=
  ⟨c3_reflexive.1 .u32, c3_reflexive.2 4 ⟨8, [1, 2, 3, 4]⟩ rfl⟩

/-- C4: the safe option family accepts exactly {} and `NeglectStability`;
`NeglectAlignment` and `NeglectValidity` are accepted only by the unsafe
family; and every safe option is an unsafe option, so the safe options form a
sub-lattice of the unsafe ones. -/
theorem c4_option_lattice :
    (∀ n : Neglect, SafeTransmuteOptions n ↔ n = .unit ∨ n = .neglectStability) ∧
      (UnsafeTransmuteOptions .neglectAlignment ∧
        ¬ SafeTransmuteOptions .neglectAlignment) ∧
      (UnsafeTransmuteOptions .neglectValidity ∧
        ¬ SafeTransmuteOptions .neglectValidity) ∧
      ∀ n : Neglect, SafeTransmuteOptions n → UnsafeTransmuteOptions n := by
  refine ⟨fun n => ⟨fun h => ?_, fun h => ?_⟩,
    ⟨.neglectAlignment, fun h => ?_⟩, ⟨.neglectValidity, fun h => ?_⟩,
    fun n h => ?_⟩
  · cases h with
    | unit => exact Or.inl rfl
    | neglectStability => exact Or.inr rfl
  · rcases h with rfl | rfl
    · exact .unit
    · exact .neglectStability
  · cases h
  · cases h
  · cases h with
    | unit => exact .unit
    | neglectStability => exact .neglectStability

/-- C5: archetype well-formedness.  An outbound-stability declaration's
archetype is itself outbound-stable and transmutable from the declaring type
under `NeglectStability` (the associated-type bounds of
`PromiseTransmutableInto`, src/src/lib.rs lines 225-231); dually, an
inbound-stability declaration's archetype is itself inbound-stable and
transmutable into the declaring type under `NeglectStability`
(`PromiseTransmutableFrom`, lines 244-250). -/
theorem c5_archetype_wf :
    (∀ t arch : Ty, PromiseTransmutableInto t arch →
        TransmuteFrom t arch .neglectStability ∧
          ∃ a2, PromiseTransmutableInto arch a2) ∧
      ∀ t arch : Ty, PromiseTransmutableFrom t arch →
        TransmuteInto arch t .neglectStability ∧
          ∃ a2, PromiseTransmutableFrom arch a2 := by
  constructor
  · intro t arch h
    cases promiseInto_arch h
    exact ⟨Holds.tf_refl t, t, h⟩
  · intro t arch h
    cases promiseFrom_arch h
    exact ⟨Holds.ti_blanket .neglectStability (Holds.tf_refl t), t, h⟩

theorem c5_witness :
    (TransmuteFrom .u8 .u8 .neglectStability ∧
      ∃ a2, PromiseTransmutableInto .u8 a2) ∧
      TransmuteInto .u8 .u8 .neglectStability ∧
        ∃ a2, PromiseTransmutableFrom .u8 a2 :=
  ⟨c5_archetype_wf.1 .u8 .u8 Holds.pti_u8, c5_archetype_wf.2 .u8 .u8 Holds.ptf_u8⟩

/-- C6 (the code evaluated at a failing input): the crate's own cross-wise
guard admits casting a slice of u32 to a slice of u32 under
`NeglectStability` (via the reflexive impl), yet for a one-element source
slice the computed destination length is 4 / 20060723 = 0, because the body
divides by the crate-local placeholder `size_of`, while the claimed formula —
total byte length over the real destination element size — gives 4 / 4 = 1. -/
theorem c6_slice_len_bug :
    SliceCastGuard .u32 .u32 .neglectStability ∧
      slice_cast_len .u32 1 .u32 = 0 ∧
      size_of_val .u32 1 / hostSize .u32 = 1 :=
  ⟨⟨.neglectStability, Holds.tf_refl _⟩, by decide, by decide⟩

/-- C7 (the code evaluated at a failing input): even the identity cast from
Vec<u32> to Vec<u32> under `NeglectStability` is rejected by the Vec-cast
impl's where-clauses, because the `Dst: SizeEq<Dst, Neglect>` bound needs
stability promises for the `Aligned` gadget, whose derive is commented out;
moreover the gadget bounds compare Dst with itself, never relating Src's and
Dst's layouts.  The body, were it reachable, would reuse pointer, length and
capacity verbatim. -/
theorem c7_vec_cast_bug :
    (VecCastGuard .u32 .u32 .neglectStability ↔ False) ∧
      ∀ v : RawVec, vec_unsafe_cast_from v = v := by
  refine ⟨⟨fun h => ?_, False.elim⟩, fun v => rfl⟩
  exact no_tf_unit_to_ref_aligned _ _ _ h.2.2.2.2.1.2

/-- C8 counterexample: for Lhs = Rhs = Vec<u8> the alignment-≤ query holds in
both directions under `NeglectStability` (via the reflexive impl), yet the
alignment-equality query fails at `NeglectStability`, because its
where-clauses re-run the ≤ query at the defaulted empty option, where Vec's
missing stability promises block the stability-derived impl. -/
theorem c8_counterexample :
    AlignEqSpec (.vec .u8) (.vec .u8) .neglectStability ∧
      ¬ AlignEq (.vec .u8) (.vec .u8) .neglectStability := by
  refine ⟨⟨⟨.neglectStability, Holds.tf_refl _⟩,
    ⟨.neglectStability, Holds.tf_refl _⟩⟩, fun h => ?_⟩
  exact no_tf_unit_from_ref_array_vec _ _ _ h.2.1.2

/-- C8 (amended): the size-equality query holds exactly when size-≤ holds in
both directions under the given waiver set, as claimed (size-≤ ignores its
waiver parameter); the alignment-equality query holds exactly when the option
is accepted and alignment-≤ holds in both directions under the *empty* waiver
set, since `AlignEq`'s where-clauses leave the `Neglect` parameter of
`AlignLtEq` at its default. -/
theorem c8_equality_queries (lhs rhs : Ty) (n : Neglect) :
    (SizeEq lhs rhs n ↔ SizeEqSpec lhs rhs n) ∧
      (AlignEq lhs rhs n ↔
        UnsafeTransmuteOptions n ∧ AlignEqSpec lhs rhs .unit) :=
  ⟨⟨fun h => ⟨⟨h.1, h.2.1.2⟩, h.1, h.2.2.2⟩,
    fun h => ⟨h.1.1, ⟨.unit, h.1.2⟩, .unit, h.2.2⟩⟩, Iff.rfl⟩

/-- C9: the into-direction is exactly the flipped from-direction — the
blanket `TransmuteInto` impl (src/src/lib.rs lines 112-137) holds exactly
when the corresponding `TransmuteFrom` instance does, and the into methods
return what the from methods return on the same value. -/
theorem c9_into_is_flipped_from (src dst : Ty) (n : Neglect) :
    (TransmuteInto src dst n ↔ TransmuteFrom src dst n) ∧
      ∀ (dstAlign : Nat) (s : SrcSlot),
        transmute_into dstAlign s = transmute_from dstAlign s ∧
          unsafe_transmute_into dstAlign s = unsafe_transmute_from dstAlign s := by
  refine ⟨⟨fun h => ?_, fun h => ?_⟩, fun a s => ⟨rfl, rfl⟩⟩
  · cases h with
    | ti_blanket hu htf => exact htf
  · rcases transmuteFrom_opts h with hn | hn
    · subst hn
      exact Holds.ti_blanket .neglectStability h
    · subst hn
      exact Holds.ti_blanket .unit h

theorem c9_witness :
    (TransmuteInto .u8 .u8 .neglectStability ↔
      TransmuteFrom .u8 .u8 .neglectStability) ∧
      ∀ (dstAlign : Nat) (s : SrcSlot),
        transmute_into dstAlign s = transmute_from dstAlign s ∧
          unsafe_transmute_into dstAlign s = unsafe_transmute_from dstAlign s :=
  c9_into_is_flipped_from .u8 .u8 .neglectStability

/-- C10: after the safe by-value conversion the result carries the source's
byte representation and the source's destructor has not run (the bits are
moved); the unsafe conversion behaves identically except it succeeds
regardless of the source address's alignment, and agrees with the safe one
whenever the source address is aligned. -/
theorem c10_move_semantics (dstAlign : Nat) (src : SrcSlot) :
    (∀ r, transmute_from dstAlign src = some r →
        r.value = src.bytes ∧ r.srcDropRan = false) ∧
      unsafe_transmute_from dstAlign src = some ⟨src.bytes, false⟩ ∧
      (src.addr % dstAlign = 0 →
        transmute_from dstAlign src = unsafe_transmute_from dstAlign src) := by
  refine ⟨fun r hr => ?_, rfl, fun h2 => ?_⟩
  · simp only [transmute_from, ptrRead] at hr
    by_cases h : src.addr % dstAlign = 0 <;> simp [h] at hr
    subst hr
    exact ⟨rfl, rfl⟩
  · simp [transmute_from, unsafe_transmute_from, ptrRead, ptrReadUnaligned, h2]

theorem c10_witness :
    (∀ r, transmute_from 4 ⟨8, [5, 6]⟩ = some r →
        r.value = [5, 6] ∧ r.srcDropRan = false) ∧
      unsafe_transmute_from 4 ⟨8, [5, 6]⟩ = some ⟨[5, 6], false⟩ ∧
      (8 % 4 = 0 →
        transmute_from 4 ⟨8, [5, 6]⟩ = unsafe_transmute_from 4 ⟨8, [5, 6]⟩) :=
  c10_move_semantics 4 ⟨8, [5, 6]⟩

end SaferTransmute
